import Mathlib

/-!
Shallow embedding of `src/server.js`: an Express CRUD server over a `books`
table (NeonDB/Postgres) with best-effort Supabase object-storage cleanup.

Modelling conventions:
- A book row mirrors the `books` schema (`id SERIAL PRIMARY KEY`,
  `title VARCHAR NOT NULL`, `description TEXT`, `thumbnail_base64 TEXT`,
  `pdf_url VARCHAR NOT NULL`, `created_at TIMESTAMP`); machine timestamps are
  `Nat`, ids are `Nat`.
- JSON body fields are `Option String` (`none` = absent/undefined); JS string
  truthiness (`undefined`/`""` falsy) is `jsTruthy`.
- Fallible external effects (pool connect, individual SQL statements, the
  remote storage `remove` call, `new URL` parsing) are oracles passed as
  booleans / functions; each handler is a total function of its oracles.
- The WHATWG `new URL(u).pathname` operation is the oracle
  `parse : String → Option String` (`none` = the constructor threw).
- `parseInt` is modelled for radix-10 inputs (optional sign, leading
  whitespace, longest digit prefix; the `0x` hex-prefix form is not modelled).
-/

/-- Row of the `books` table, as declared by `createTable` in `server.js`.
`title` and `pdf_url` are NOT NULL columns. -/
structure Book where
  id : Nat
  title : String
  description : Option String
  thumbnail_base64 : Option String
  pdf_url : String
  created_at : Nat
deriving DecidableEq, Repr

/-- Request body of `POST /api/books` as destructured by the handler. -/
structure CreateBody where
  title : Option String
  description : Option String
  thumbnail_base64 : Option String
  pdf_url : Option String
deriving DecidableEq, Repr

/-- Request body of `PUT /api/books/:id` as destructured by the handler. -/
structure UpdateBody where
  title : Option String
  description : Option String
  thumbnail_base64 : Option String
  pdf_url : Option String
  old_pdf_url : Option String
deriving DecidableEq, Repr

/-- JS truthiness of a possibly-absent string value: `undefined` and the
empty string are falsy, every other string is truthy. -/
def jsTruthy : Option String → Bool
  | none => false
  | some s => s ≠ ""

/-- Characters skipped by `parseInt` before reading the number. -/
def jsWhitespace (c : Char) : Bool :=
  c = ' ' || c = '\t' || c = '\n' || c = '\r'

/-- Numeric value of a digit string (most significant first). -/
def digitsToNat (l : List Char) : Nat :=
  l.foldl (fun a c => a * 10 + (c.toNat - 48)) 0

/-- ECMAScript `parseInt` on a trimmed character list: optional sign then the
longest prefix of decimal digits; `none` models `NaN`. -/
def jsParseIntCore (cs : List Char) : Option Int :=
  match cs with
  | '-' :: rest =>
    match rest.takeWhile Char.isDigit with
    | [] => none
    | ds => some (-(digitsToNat ds : Int))
  | '+' :: rest =>
    match rest.takeWhile Char.isDigit with
    | [] => none
    | ds => some (digitsToNat ds : Int)
  | _ =>
    match cs.takeWhile Char.isDigit with
    | [] => none
    | ds => some (digitsToNat ds : Int)

/-- Model of `parseInt(q)` where `q` is a possibly-absent query value;
`parseInt(undefined)` is `NaN` (`none`). -/
def jsParseInt : Option String → Option Int
  | none => none
  | some s => jsParseIntCore (s.data.dropWhile jsWhitespace)

/-- Model of `v || d` on a JS number: `NaN` and `0` are falsy and give the
default, any other number (negatives included) is kept. -/
def jsOrInt (v : Option Int) (d : Int) : Int :=
  match v with
  | none => d
  | some n => if n = 0 then d else n

/-- Model of `err.message || 'Server error'` for a thrown value whose
`message` may be absent or empty. -/
def jsOrServerError (errMsg : Option String) : String :=
  match errMsg with
  | none => "Server error"
  | some m => if m = "" then "Server error" else m

/-- Bucket segment the two cleanup blocks split on: `'/ebook-pdf/'`. -/
def seg : List Char := "/ebook-pdf/".data

/-- Fuelled model of ECMAScript `String.prototype.split` with the fixed
separator `seg`: scans left to right, cutting at each non-overlapping
occurrence of the separator. Fuel `≥` input length makes the `0` arm
unreachable. -/
def jsSplitFuel : Nat → List Char → List (List Char)
  | _, [] => [[]]
  | 0, l => [l]
  | f + 1, c :: cs =>
    if seg.isPrefixOf (c :: cs) then
      [] :: jsSplitFuel f (cs.drop (seg.length - 1))
    else
      match jsSplitFuel f cs with
      | [] => [[c]]
      | t :: ts => (c :: t) :: ts

/-- Model of `path.split('/ebook-pdf/')` from the two cleanup blocks. -/
def jsSplitSeg (s : String) : List String :=
  (jsSplitFuel s.data.length s.data).map String.mk

/-- Model of `const filePath = new URL(u).pathname.split('/ebook-pdf/')[1]`
followed by the `if (filePath)` truthiness guard: `none` when the index is
out of range (`undefined`) or the element is the empty string. -/
def extractKey (path : String) : Option String :=
  match (jsSplitSeg path)[1]? with
  | none => none
  | some k => if k = "" then none else some k

/-- Keys passed to `supabaseAdmin.storage.from('ebook-pdf').remove([...])` by
one cleanup block run on `url`: empty when `new URL` throws (`parse url =
none`) or the extracted key is falsy, a singleton otherwise. -/
def cleanupRequests (parse : String → Option String) (url : String) : List String :=
  match parse url with
  | none => []
  | some path =>
    match extractKey path with
    | none => []
    | some k => [k]

/-- Spec-language definition (claim side, for comparison with `extractKey`):
the part of a path after the first occurrence of the bucket segment, `none`
when the segment is absent. -/
def afterSeg : List Char → Option (List Char)
  | [] => none
  | c :: cs =>
    if seg.isPrefixOf (c :: cs) then some ((c :: cs).drop seg.length)
    else afterSeg cs

/-- Spec-language definition (claim side): the part of a path strictly before
the first occurrence of the bucket segment (the whole path when absent). -/
def beforeSeg : List Char → List Char
  | [] => []
  | c :: cs =>
    if seg.isPrefixOf (c :: cs) then []
    else c :: beforeSeg cs

/-- Claim-language key: everything in the URL path after the (first) bucket
segment. -/
def claimKeyAfterSeg (path : String) : Option String :=
  (afterSeg path.data).map String.mk

/-- Success/failure oracles for the database steps of the delete handler:
`pool.connect()`, `BEGIN`, the `SELECT`, the `DELETE`, and `COMMIT`.
`false` means that step throws. The explicit `ROLLBACK` statements and
`client.release()` are assumed not to throw. -/
structure DelDb where
  connectOk : Bool
  beginOk : Bool
  selectOk : Bool
  deleteOk : Bool
  commitOk : Bool
deriving DecidableEq, Repr

/-- Observable steps of the delete handler, recorded when the corresponding
statement completes (the cleanup event records that the cleanup block ran,
whatever its outcome). -/
inductive Ev where
  | evBegin
  | evSelect
  | evRowDelete
  | evCleanup
  | evCommit
  | evRollback
deriving DecidableEq, Repr

/-- Common observable outcome of a CRUD handler: HTTP status, JSON
`success`/`message` fields, the table after the request, the cleanup URLs for
which the cleanup block was entered, the storage keys passed to `remove`, and
the keys actually removed (remote call succeeded). -/
structure HandlerResult where
  status : Nat
  success : Bool
  message : String
  table : List Book
  cleanupUrls : List String
  removeRequests : List String
  removed : List String
deriving DecidableEq, Repr

/-- Result of the delete handler: the common outcome plus the step trace and
connection-pool accounting (`acquired` = `pool.connect()` returned a client,
`releases` = number of `client.release()` calls). -/
structure DelResult extends HandlerResult where
  trace : List Ev
  acquired : Bool
  releases : Nat
deriving DecidableEq, Repr

/-- Model of the `POST /api/books` handler body (after `authMiddleware`):
reject with 400 when `title`, `thumbnail_base64` or `pdf_url` is falsy,
otherwise `INSERT` a row with server-assigned id and timestamp and answer 201
with a fixed acknowledgement. `dbOk` is the oracle for the `INSERT`; `errMsg`
models `err.message` of a thrown DB error. -/
def createHandler (dbOk : Bool) (errMsg : Option String) (nextId : Nat) (now : Nat)
    (body : CreateBody) (table : List Book) : HandlerResult :=
  if !(jsTruthy body.title && jsTruthy body.thumbnail_base64 && jsTruthy body.pdf_url) then
    ⟨400, false, "Data tidak lengkap", table, [], [], []⟩
  else if !dbOk then
    ⟨500, false, jsOrServerError errMsg, table, [], [], []⟩
  else
    match body.title, body.thumbnail_base64, body.pdf_url with
    | some t, some th, some p =>
      ⟨201, true, "Buku berhasil ditambahkan",
        table ++ [{ id := nextId, title := t, description := body.description,
                    thumbnail_base64 := some th, pdf_url := p, created_at := now }],
        [], [], []⟩
    | _, _, _ =>
      -- unreachable: the guard above already ensured all three are truthy
      ⟨400, false, "Data tidak lengkap", table, [], [], []⟩

/-- Model of the `PUT /api/books/:id` handler body: run the unconditional
`UPDATE` (it throws on a NOT NULL violation when a row matches and `title` or
`pdf_url` is absent, and `dbOk = false` models any other DB failure), then,
when `old_pdf_url` is truthy and differs from `pdf_url`, run the guarded
cleanup block for the old URL; always answer 200 when the `UPDATE` succeeded.
`removeOk` is the oracle for the remote `remove` call. -/
def updateHandler (parse : String → Option String) (removeOk : Bool) (dbOk : Bool)
    (errMsg : Option String) (table : List Book) (id : Nat) (body : UpdateBody) :
    HandlerResult :=
  let rowMatches := table.any (fun b => b.id == id)
  if !dbOk || (rowMatches && (body.title == none || body.pdf_url == none)) then
    ⟨500, false, jsOrServerError errMsg, table, [], [], []⟩
  else
    let table' :=
      match body.title, body.pdf_url with
      | some t, some p =>
        table.map (fun b =>
          if b.id == id then
            { b with title := t, description := body.description,
                     thumbnail_base64 := body.thumbnail_base64, pdf_url := p }
          else b)
      | _, _ => table
    match body.old_pdf_url with
    | some old =>
      if old ≠ "" && body.pdf_url != some old then
        let reqs := cleanupRequests parse old
        ⟨200, true, "Buku berhasil diperbarui", table', [old], reqs,
          if removeOk then reqs else []⟩
      else
        ⟨200, true, "Buku berhasil diperbarui", table', [], [], []⟩
    | none =>
      ⟨200, true, "Buku berhasil diperbarui", table', [], [], []⟩

/-- Model of the `DELETE /api/books/:id` handler body: acquire a client,
`BEGIN`, `SELECT pdf_url` (404 + `ROLLBACK` when no row), `DELETE` the row,
run the guarded cleanup block on the stored `pdf_url`, `COMMIT`, answer 200;
any DB-step throw is caught, rolled back, and answered 500; the row deletion
is visible in the resulting table only after `COMMIT`; `client.release()`
runs in the `finally` on every path on which a client was acquired. -/
def deleteHandler (parse : String → Option String) (removeOk : Bool) (db : DelDb)
    (table : List Book) (id : Nat) : DelResult :=
  if !db.connectOk then
    -- pool.connect() threw: `client` is undefined, so no ROLLBACK, no release
    ⟨⟨500, false, "Server error saat menghapus", table, [], [], []⟩, [], false, 0⟩
  else if !db.beginOk then
    ⟨⟨500, false, "Server error saat menghapus", table, [], [], []⟩,
      [.evRollback], true, 1⟩
  else if !db.selectOk then
    ⟨⟨500, false, "Server error saat menghapus", table, [], [], []⟩,
      [.evBegin, .evRollback], true, 1⟩
  else
    match table.find? (fun b => b.id == id) with
    | none =>
      ⟨⟨404, false, "Buku tidak ditemukan", table, [], [], []⟩,
        [.evBegin, .evSelect, .evRollback], true, 1⟩
    | some book =>
      if !db.deleteOk then
        ⟨⟨500, false, "Server error saat menghapus", table, [], [], []⟩,
          [.evBegin, .evSelect, .evRollback], true, 1⟩
      else
        let reqs := cleanupRequests parse book.pdf_url
        let rem := if removeOk then reqs else []
        if !db.commitOk then
          -- COMMIT threw: the row deletion is rolled back, but any storage
          -- removal already happened (the two systems are not atomic)
          ⟨⟨500, false, "Server error saat menghapus", table, [book.pdf_url], reqs, rem⟩,
            [.evBegin, .evSelect, .evRowDelete, .evCleanup, .evRollback], true, 1⟩
        else
          ⟨⟨200, true, "Buku berhasil dihapus",
              table.filter (fun b => b.id != id), [book.pdf_url], reqs, rem⟩,
            [.evBegin, .evSelect, .evRowDelete, .evCleanup, .evCommit], true, 1⟩

/-- Insert a row into a list kept sorted by `created_at` descending (after
any earlier row with the same timestamp, matching a stable sort). -/
def insertDesc (b : Book) : List Book → List Book
  | [] => [b]
  | x :: xs => if b.created_at ≤ x.created_at then x :: insertDesc b xs else b :: x :: xs

/-- Model of `ORDER BY created_at DESC`. -/
def sortByCreatedDesc (l : List Book) : List Book :=
  l.foldr insertDesc []

/-- Result of the paged list handler. The pagination fields are only part of
the HTTP response when `status = 200`; `offsetUsed`/`limitUsed` are the
values passed to `LIMIT $1 OFFSET $2`. -/
structure ListResult where
  status : Nat
  success : Bool
  message : String
  books : List Book
  currentPage : Int
  totalPages : Int
  totalBooks : Nat
  offsetUsed : Int
  limitUsed : Int
deriving DecidableEq, Repr

/-- Model of the `GET /api/books` handler body: `page = parseInt(q.page) || 1`,
`limit = parseInt(q.limit) || 5`, `offset = (page-1)*limit`; the rows query
(`LIMIT limit OFFSET offset`) throws when Postgres receives a negative
`LIMIT` or `OFFSET` (or when the `selectOk` oracle says so), the count query
throws when `countOk = false`; any throw answers 500; otherwise
`totalPages = Math.ceil(totalBooks / limit)` (exact-arithmetic model of the
JS float division). -/
def listHandler (selectOk countOk : Bool) (table : List Book)
    (pageQ limitQ : Option String) : ListResult :=
  let page := jsOrInt (jsParseInt pageQ) 1
  let limit := jsOrInt (jsParseInt limitQ) 5
  let offset := (page - 1) * limit
  if !selectOk || limit < 0 || offset < 0 then
    ⟨500, false, "Server error", [], page, 0, 0, offset, limit⟩
  else if !countOk then
    ⟨500, false, "Server error", [], page, 0, 0, offset, limit⟩
  else
    let rows := ((sortByCreatedDesc table).drop offset.toNat).take limit.toNat
    let totalBooks := table.length
    let totalPages := Int.ceil ((totalBooks : ℚ) / (limit : ℚ))
    ⟨200, true, "", rows, page, totalPages, totalBooks, offset, limit⟩

/-- Outcome of `authMiddleware`: call `next()`, answer a structured 401, or
redirect to `/login`. -/
inductive AuthOutcome where
  | proceed
  | denied401
  | redirectLogin
deriving DecidableEq, Repr

/-- Model of `authMiddleware`: pass through when the `session` cookie equals
the fixed marker; otherwise a 401 JSON body for API-style requests
(`req.xhr`, a JSON-accepting `Accept` header — abstracted as the boolean
`acceptsJson` — or a path under `/api/`) and a redirect for page requests.
The request path is its character list. -/
def authMiddleware (session : Option String) (xhr acceptsJson : Bool)
    (path : List Char) : AuthOutcome :=
  if session == some "admin_logged_in" then .proceed
  else if xhr || acceptsJson || "/api/".data.isPrefixOf path then .denied401
  else .redirectLogin

theorem jsSplitFuel_nil (f : Nat) : jsSplitFuel f [] = [[]] := by
  cases f <;> rfl

theorem jsSplitFuel_ne_nil (f : Nat) (l : List Char) : jsSplitFuel f l ≠ [] := by
  match f, l with
  | _, [] => rw [jsSplitFuel_nil]; simp
  | 0, _ :: _ => simp [jsSplitFuel]
  | f + 1, c :: cs =>
    rw [jsSplitFuel]
    split
    · simp
    · cases jsSplitFuel f cs <;> simp

theorem seg_length : seg.length = 11 := rfl

theorem jsSplitFuel_congr (f₁ : Nat) : ∀ (f₂ : Nat) (l : List Char),
    l.length ≤ f₁ → l.length ≤ f₂ → jsSplitFuel f₁ l = jsSplitFuel f₂ l := by
  induction f₁ with
  | zero =>
    intro f₂ l h₁ _
    have : l = [] := List.length_eq_zero.mp (Nat.le_antisymm h₁ (Nat.zero_le _))
    subst this
    rw [jsSplitFuel_nil, jsSplitFuel_nil]
  | succ a ih =>
    intro f₂ l h₁ h₂
    match l, f₂ with
    | [], _ => rw [jsSplitFuel_nil, jsSplitFuel_nil]
    | c :: cs, 0 => simp at h₂
    | c :: cs, b + 1 =>
      simp only [List.length_cons, Nat.succ_le_succ_iff] at h₁ h₂
      rw [jsSplitFuel, jsSplitFuel]
      split
      · have hd : (cs.drop (seg.length - 1)).length ≤ a := by
          rw [List.length_drop]; omega
        have hd₂ : (cs.drop (seg.length - 1)).length ≤ b := by
          rw [List.length_drop]; omega
        rw [ih _ _ hd hd₂]
      · rw [ih _ _ h₁ h₂]

theorem jsSplitFuel_spec (f : Nat) : ∀ l : List Char, l.length ≤ f →
    jsSplitFuel f l =
      beforeSeg l ::
        (match afterSeg l with
         | none => []
         | some t => jsSplitFuel t.length t) := by
  induction f with
  | zero =>
    intro l h
    have : l = [] := List.length_eq_zero.mp (Nat.le_antisymm h (Nat.zero_le _))
    subst this
    rw [jsSplitFuel_nil]
    rfl
  | succ a ih =>
    intro l h
    match l with
    | [] => rw [jsSplitFuel_nil]; rfl
    | c :: cs =>
      simp only [List.length_cons, Nat.succ_le_succ_iff] at h
      rw [jsSplitFuel, beforeSeg, afterSeg]
      split
      · have hd : (cs.drop (seg.length - 1)).length ≤ a := by
          rw [List.length_drop]; omega
        have hcongr := jsSplitFuel_congr a (cs.drop (seg.length - 1)).length
          (cs.drop (seg.length - 1)) hd (Nat.le_refl _)
        rw [hcongr]
        have hdrop : (c :: cs).drop seg.length = cs.drop (seg.length - 1) := by
          rw [seg_length]
          rfl
        rw [hdrop]
      · rw [ih cs h]

theorem jsSplitFuel_get1 (s : List Char) :
    (jsSplitFuel s.length s)[1]? = (afterSeg s).map beforeSeg := by
  rw [jsSplitFuel_spec s.length s (Nat.le_refl _)]
  cases h : afterSeg s with
  | none => rfl
  | some t =>
    dsimp only
    rw [jsSplitFuel_spec t.length t (Nat.le_refl _)]
    simp

theorem string_mk_eq_empty_iff (l : List Char) : String.mk l = "" ↔ l = [] := by
  constructor
  · intro h
    have := congrArg String.data h
    simpa using this
  · intro h
    subst h
    rfl

theorem extractKey_eq (path : String) :
    extractKey path =
      match afterSeg path.data with
      | none => none
      | some t => if beforeSeg t = [] then none else some (String.mk (beforeSeg t)) := by
  unfold extractKey jsSplitSeg
  rw [List.getElem?_map, jsSplitFuel_get1]
  cases h : afterSeg path.data with
  | none => rfl
  | some t =>
    simp only [Option.map_some]
    by_cases he : beforeSeg t = []
    · simp [he, string_mk_eq_empty_iff]
    · simp [he, string_mk_eq_empty_iff]

/-- External-effect oracles for one request, bundling the per-endpoint
database flags, the URL parser, the remote-remove outcome, the thrown error
message, and the server-assigned id/timestamp for an insert. -/
structure Oracles where
  parse : String → Option String
  removeOk : Bool
  delDb : DelDb
  updOk : Bool
  crOk : Bool
  selOk : Bool
  cntOk : Bool
  errMsg : Option String
  nextId : Nat
  now : Nat

/-- One request to a protected endpoint, with its parsed inputs. -/
inductive ApiCall where
  | pagedList (pageQ limitQ : Option String)
  | create (body : CreateBody)
  | update (id : Nat) (body : UpdateBody)
  | del (id : Nat)
  | checkAuth
deriving Repr

/-- Request path (`req.path`) of each protected endpoint. -/
def callPath : ApiCall → List Char
  | .pagedList _ _ => "/api/books".data
  | .create _ => "/api/books".data
  | .update i _ => "/api/books/".data ++ (toString i).data
  | .del i => "/api/books/".data ++ (toString i).data
  | .checkAuth => "/api/check-auth".data

/-- Observable outcome of a protected request: status, table afterwards, and
the keys requested from / removed by the object store. -/
structure ApiResult where
  status : Nat
  table : List Book
  removeRequests : List String
  removed : List String
deriving DecidableEq, Repr

/-- One protected request end to end: `authMiddleware` first, then the
matching route handler. A redirect to `/login` is reported with status 302
(unreachable here: every protected API path starts with `/api/`). -/
def handleProtected (o : Oracles) (session : Option String) (xhr acceptsJson : Bool)
    (call : ApiCall) (table : List Book) : ApiResult :=
  match authMiddleware session xhr acceptsJson (callPath call) with
  | .denied401 => ⟨401, table, [], []⟩
  | .redirectLogin => ⟨302, table, [], []⟩
  | .proceed =>
    match call with
    | .pagedList pq lq => ⟨(listHandler o.selOk o.cntOk table pq lq).status, table, [], []⟩
    | .create b =>
      let r := createHandler o.crOk o.errMsg o.nextId o.now b table
      ⟨r.status, r.table, r.removeRequests, r.removed⟩
    | .update i b =>
      let r := updateHandler o.parse o.removeOk o.updOk o.errMsg table i b
      ⟨r.status, r.table, r.removeRequests, r.removed⟩
    | .del i =>
      let r := deleteHandler o.parse o.removeOk o.delDb table i
      ⟨r.status, r.table, r.removeRequests, r.removed⟩
    | .checkAuth => ⟨200, table, [], []⟩

/-- C5 counterexample: on the path `/ebook-pdf/a/ebook-pdf/b` the code
requests deletion of the key `a` (the split element between the first and
second occurrence of the bucket segment), not the part of the path after the
bucket segment, which is `a/ebook-pdf/b`. -/
theorem extractKey_not_suffix_after_seg :
    extractKey "/ebook-pdf/a/ebook-pdf/b" = some "a" ∧
    claimKeyAfterSeg "/ebook-pdf/a/ebook-pdf/b" = some "a/ebook-pdf/b" ∧
    some ("a" : String) ≠ some ("a/ebook-pdf/b" : String) := by
  refine ⟨by decide, by decide, by decide⟩

/-- C5 (amended): the key requested for deletion is the part of the URL path
after the first occurrence of `/ebook-pdf/`, truncated before the next
occurrence of `/ebook-pdf/` if there is one; when the segment is absent, or
that part is empty, no remote delete is issued, and this never changes the
enclosing handler's HTTP status (no-op, not an error). -/
theorem extractKey_between_occurrences :
    (∀ path : String,
       extractKey path =
         match afterSeg path.data with
         | none => none
         | some t => if beforeSeg t = [] then none else some (String.mk (beforeSeg t))) ∧
    (∀ (parse : String → Option String) (url : String),
       cleanupRequests parse url =
         match parse url with
         | none => []
         | some path =>
           match afterSeg path.data with
           | none => []
           | some t => if beforeSeg t = [] then [] else [String.mk (beforeSeg t)]) ∧
    (∀ (parse : String → Option String) (removeOk : Bool) (errMsg : Option String)
       (table : List Book) (id : Nat) (body : UpdateBody),
       (updateHandler parse removeOk true errMsg table id body).status =
         (updateHandler (fun _ => none) false true errMsg table id body).status) := by
  refine ⟨extractKey_eq, ?_, ?_⟩
  · intro parse url
    unfold cleanupRequests
    cases parse url with
    | none => rfl
    | some path =>
      dsimp only
      rw [extractKey_eq]
      cases afterSeg path.data with
      | none => rfl
      | some t =>
        dsimp only
        by_cases h : beforeSeg t = [] <;> simp [h]
  · intro parse removeOk errMsg table id body
    unfold updateHandler
    dsimp only
    by_cases h : (!true || (table.any (fun b => b.id == id) &&
        (body.title == none || body.pdf_url == none))) = true
    · simp only [if_pos h]
    · simp only [if_neg h]
      cases body.old_pdf_url with
      | none => rfl
      | some old =>
        dsimp only
        by_cases hc : (old ≠ "" && body.pdf_url != some old) = true
        · rw [if_pos hc, if_pos hc]
        · rw [if_neg hc, if_neg hc]

/-- C3: the cleanup block never raises to its caller — for any two URL-parse
oracles and any two remote-delete outcomes (success or failure), the
enclosing delete handler's status, resulting table, step trace and message,
and the enclosing update handler's status and resulting table, are
identical; only the set of removed storage objects can differ. -/
theorem cleanup_failure_never_propagates
    (p₁ p₂ : String → Option String) (r₁ r₂ : Bool) (db : DelDb) (dbOk : Bool)
    (errMsg : Option String) (table : List Book) (idD idU : Nat) (body : UpdateBody) :
    ((deleteHandler p₁ r₁ db table idD).status = (deleteHandler p₂ r₂ db table idD).status ∧
     (deleteHandler p₁ r₁ db table idD).table = (deleteHandler p₂ r₂ db table idD).table ∧
     (deleteHandler p₁ r₁ db table idD).trace = (deleteHandler p₂ r₂ db table idD).trace ∧
     (deleteHandler p₁ r₁ db table idD).message = (deleteHandler p₂ r₂ db table idD).message) ∧
    ((updateHandler p₁ r₁ dbOk errMsg table idU body).status =
       (updateHandler p₂ r₂ dbOk errMsg table idU body).status ∧
     (updateHandler p₁ r₁ dbOk errMsg table idU body).table =
       (updateHandler p₂ r₂ dbOk errMsg table idU body).table ∧
     (updateHandler p₁ r₁ dbOk errMsg table idU body).message =
       (updateHandler p₂ r₂ dbOk errMsg table idU body).message) := by
  constructor
  · obtain ⟨c, bg, sl, dl, cm⟩ := db
    cases c <;> cases bg <;> cases sl <;> cases dl <;> cases cm <;>
      simp only [deleteHandler] <;>
      first
        | exact ⟨rfl, rfl, rfl, rfl⟩
        | (cases table.find? (fun b => b.id == idD) <;> exact ⟨rfl, rfl, rfl, rfl⟩)
  · unfold updateHandler
    dsimp only
    by_cases h : (!dbOk || (table.any (fun b => b.id == idU) &&
        (body.title == none || body.pdf_url == none))) = true
    · rw [if_pos h, if_pos h]
      exact ⟨rfl, rfl, rfl⟩
    · rw [if_neg h, if_neg h]
      cases body.old_pdf_url with
      | none => exact ⟨rfl, rfl, rfl⟩
      | some old =>
        dsimp only
        by_cases hc : (old ≠ "" && body.pdf_url != some old) = true
        · rw [if_pos hc, if_pos hc]
          exact ⟨rfl, rfl, rfl⟩
        · rw [if_neg hc, if_neg hc]
          exact ⟨rfl, rfl, rfl⟩

/-- Concrete book row used by witnesses. -/
def bkA : Book :=
  { id := 1, title := "A", description := none, thumbnail_base64 := none,
    pdf_url := "https://store/ebook-pdf/a.pdf", created_at := 0 }

/-- All-success database oracle used by witnesses. -/
def dbAllOk : DelDb := ⟨true, true, true, true, true⟩

/-- URL-parse oracle that always throws, used by witnesses. -/
def parseNone : String → Option String := fun _ => none

/-- C1: delete is atomic with respect to the book table — when the three
steps up to the lookup succeed and no row has the requested id, the response
is 404 and the table is unchanged; when a row with the id exists and the
remaining database steps succeed, the response is 200 and exactly the rows
with that id are gone, for every cleanup outcome (any parse oracle, any
remote-remove outcome). -/
theorem delete_atomic_wrt_table
    (parse : String → Option String) (removeOk : Bool) (db : DelDb)
    (table : List Book) (id : Nat)
    (hc : db.connectOk = true) (hb : db.beginOk = true) (hs : db.selectOk = true) :
    ((∀ b ∈ table, b.id ≠ id) →
       (deleteHandler parse removeOk db table id).status = 404 ∧
       (deleteHandler parse removeOk db table id).table = table) ∧
    (db.deleteOk = true → db.commitOk = true → ∀ b₀ ∈ table, b₀.id = id →
       (deleteHandler parse removeOk db table id).status = 200 ∧
       ∀ b : Book, b ∈ (deleteHandler parse removeOk db table id).table ↔
         (b ∈ table ∧ b.id ≠ id)) := by
  constructor
  · intro hnone
    have hfind : table.find? (fun b => b.id == id) = none := by
      rw [List.find?_eq_none]
      intro x hx
      simp [hnone x hx]
    constructor
    · simp [deleteHandler, hc, hb, hs, hfind]
    · simp [deleteHandler, hc, hb, hs, hfind]
  · intro hd hcm b₀ hmem hid
    have hfind : ∃ bk, table.find? (fun b => b.id == id) = some bk := by
      cases hf : table.find? (fun b => b.id == id) with
      | none =>
        exfalso
        have := List.find?_eq_none.mp hf b₀ hmem
        simp [hid] at this
      | some bk => exact ⟨bk, rfl⟩
    obtain ⟨bk, hfind⟩ := hfind
    constructor
    · simp [deleteHandler, hc, hb, hs, hd, hcm, hfind]
    · intro b
      simp [deleteHandler, hc, hb, hs, hd, hcm, hfind, List.mem_filter, bne_iff_ne]

/-- Witness for C1 at a concrete table: id 2 is absent (404, unchanged),
id 1 is present (200, row gone) with a failing cleanup oracle. -/
theorem delete_atomic_wrt_table_witness :
    (deleteHandler parseNone false dbAllOk [bkA] 2).status = 404 ∧
    (deleteHandler parseNone false dbAllOk [bkA] 2).table = [bkA] ∧
    (deleteHandler parseNone false dbAllOk [bkA] 1).status = 200 ∧
    (bkA ∈ (deleteHandler parseNone false dbAllOk [bkA] 1).table ↔
      (bkA ∈ [bkA] ∧ bkA.id ≠ 1)) := by
  have h404 := (delete_atomic_wrt_table parseNone false dbAllOk [bkA] 2 rfl rfl rfl).1
    (by decide)
  have h200 := (delete_atomic_wrt_table parseNone false dbAllOk [bkA] 1 rfl rfl rfl).2
    rfl rfl bkA (by decide) rfl
  exact ⟨h404.1, h404.2, h200.1, h200.2 bkA⟩

/-- C2: the delete handler is the specified state machine — the status is
always 200, 404 or 500; 200 exactly when the full trace
begin–select–row-delete–cleanup-attempt–commit ran in that order (so the
commit always follows the cleanup attempt); 404 rolls back after the lookup
with the table unchanged; 500 happens only when some database step failed
(never because of a cleanup failure) and always without a commit and with
the table unchanged. -/
theorem delete_lifecycle_states
    (parse : String → Option String) (removeOk : Bool) (db : DelDb)
    (table : List Book) (id : Nat) :
    ((deleteHandler parse removeOk db table id).status = 200 ∨
     (deleteHandler parse removeOk db table id).status = 404 ∨
     (deleteHandler parse removeOk db table id).status = 500) ∧
    ((deleteHandler parse removeOk db table id).status = 200 ↔
     (deleteHandler parse removeOk db table id).trace =
       [Ev.evBegin, Ev.evSelect, Ev.evRowDelete, Ev.evCleanup, Ev.evCommit]) ∧
    ((deleteHandler parse removeOk db table id).status = 404 →
     (deleteHandler parse removeOk db table id).trace =
       [Ev.evBegin, Ev.evSelect, Ev.evRollback] ∧
     (deleteHandler parse removeOk db table id).table = table) ∧
    ((deleteHandler parse removeOk db table id).status = 500 →
     Ev.evCommit ∉ (deleteHandler parse removeOk db table id).trace ∧
     (deleteHandler parse removeOk db table id).table = table ∧
     (db.connectOk = false ∨ db.beginOk = false ∨ db.selectOk = false ∨
      db.deleteOk = false ∨ db.commitOk = false)) ∧
    (db.connectOk = true → db.beginOk = true → db.selectOk = true →
     db.deleteOk = true → db.commitOk = true →
     (deleteHandler parse removeOk db table id).status ≠ 500) := by
  obtain ⟨c, bg, sl, dl, cm⟩ := db
  cases c <;> cases bg <;> cases sl <;> cases dl <;> cases cm <;>
    first
      | (simp [deleteHandler]; done)
      | (cases hf : table.find? (fun b => b.id == id) <;> simp [deleteHandler, hf])

/-- Witness for C2: with every database step succeeding and a failing
cleanup, the full trace runs and the status is not 500. -/
theorem delete_lifecycle_states_witness :
    (deleteHandler parseNone false dbAllOk [bkA] 1).trace =
      [Ev.evBegin, Ev.evSelect, Ev.evRowDelete, Ev.evCleanup, Ev.evCommit] ∧
    (deleteHandler parseNone false dbAllOk [bkA] 1).status ≠ 500 := by
  have h := delete_lifecycle_states parseNone false dbAllOk [bkA] 1
  exact ⟨h.2.1.mp (by decide), h.2.2.2.2 rfl rfl rfl rfl rfl⟩

/-- C9: the delete handler acquires a client exactly when `pool.connect()`
succeeds, and every path on which one was acquired releases it exactly once
(404, 500 and 200 paths alike); no release happens when none was acquired. -/
theorem delete_releases_connection
    (parse : String → Option String) (removeOk : Bool) (db : DelDb)
    (table : List Book) (id : Nat) :
    (deleteHandler parse removeOk db table id).acquired = db.connectOk ∧
    (deleteHandler parse removeOk db table id).releases =
      (if (deleteHandler parse removeOk db table id).acquired = true then 1 else 0) := by
  obtain ⟨c, bg, sl, dl, cm⟩ := db
  cases c <;> cases bg <;> cases sl <;> cases dl <;> cases cm <;>
    first
      | (simp [deleteHandler]; done)
      | (cases hf : table.find? (fun b => b.id == id) <;> simp [deleteHandler, hf])

theorem map_ite_id {α : Type} (l : List α) (p : α → Prop) [DecidablePred p] (f : α → α)
    (h : ∀ a ∈ l, ¬ p a) : (l.map fun a => if p a then f a else a) = l := by
  induction l with
  | nil => rfl
  | cons x xs ih =>
    rw [List.map_cons, if_neg (h x (List.mem_cons_self x xs)),
      ih (fun a ha => h a (List.mem_cons_of_mem x ha))]

/-- C4 counterexample: a request whose `old_pdf_url` is present (the empty
string) and differs from the new `pdf_url` triggers no cleanup call at all —
JS truthiness treats `''` as absent. -/
theorem update_empty_old_url_skips_cleanup :
    some ("" : String) ≠ (none : Option String) ∧
    some ("" : String) ≠ some ("u2" : String) ∧
    (updateHandler parseNone true true none [] 1
        ⟨some "T", none, some "th", some "u2", some ""⟩).status = 200 ∧
    (updateHandler parseNone true true none [] 1
        ⟨some "T", none, some "th", some "u2", some ""⟩).cleanupUrls = [] := by
  refine ⟨by decide, by decide, by decide, by decide⟩

/-- C4 (amended): on an update whose `UPDATE` statement succeeds, no cleanup
call is triggered when `old_pdf_url` is absent, empty, or equal to the new
`pdf_url`; exactly one cleanup attempt is made, for the old URL, when
`old_pdf_url` is present, non-empty, and differs from `pdf_url`. -/
theorem update_cleanup_condition
    (parse : String → Option String) (removeOk : Bool) (errMsg : Option String)
    (table : List Book) (id : Nat) (body : UpdateBody)
    (hok : (table.any (fun b => b.id == id) &&
      (body.title == none || body.pdf_url == none)) = false) :
    ((body.old_pdf_url = none ∨ body.old_pdf_url = some "" ∨
      body.old_pdf_url = body.pdf_url) →
      (updateHandler parse removeOk true errMsg table id body).cleanupUrls = []) ∧
    (∀ s, body.old_pdf_url = some s → s ≠ "" → body.pdf_url ≠ some s →
      (updateHandler parse removeOk true errMsg table id body).cleanupUrls = [s]) := by
  constructor
  · intro hskip
    rcases hskip with h | h | h
    · simp [updateHandler, hok, h]
    · simp [updateHandler, hok, h]
    · cases hp : body.pdf_url with
      | none =>
        simp [updateHandler, h, hp]
        split <;> rfl
      | some p =>
        simp [updateHandler, h, hp]
        split <;> rfl
  · intro s hs hne hpdf
    simp [updateHandler, hok, hs, hne, bne_iff_ne, Ne.symm, hpdf]

/-- Witness for C4 at concrete bodies: equal URLs trigger nothing, differing
non-empty URLs trigger exactly one cleanup for the old URL. -/
theorem update_cleanup_condition_witness :
    (updateHandler parseNone true true none [] 1
        ⟨some "T", none, some "th", some "u1", some "u1"⟩).cleanupUrls = [] ∧
    (updateHandler parseNone true true none [] 1
        ⟨some "T", none, some "th", some "u2", some "u1"⟩).cleanupUrls = ["u1"] := by
  have h₁ := (update_cleanup_condition parseNone true none [] 1
    ⟨some "T", none, some "th", some "u1", some "u1"⟩ (by decide)).1
    (Or.inr (Or.inr rfl))
  have h₂ := (update_cleanup_condition parseNone true none [] 1
    ⟨some "T", none, some "th", some "u2", some "u1"⟩ (by decide)).2
    "u1" rfl (by decide) (by decide)
  exact ⟨h₁, h₂⟩

/-- C10 counterexample: for an id with no matching row the handler still
answers 200, but with `old_pdf_url` present (empty) and differing from
`pdf_url` no cleanup is attempted, against the claim's cleanup clause. -/
theorem update_missing_id_empty_old_skips_cleanup :
    some ("" : String) ≠ (none : Option String) ∧
    some ("" : String) ≠ some ("v2" : String) ∧
    (updateHandler parseNone true true none [] 2
        ⟨some "T", none, some "th", some "v2", some ""⟩).status = 200 ∧
    (updateHandler parseNone true true none [] 2
        ⟨some "T", none, some "th", some "v2", some ""⟩).cleanupUrls = [] := by
  refine ⟨by decide, by decide, by decide, by decide⟩

/-- C10 (amended): the update handler performs no existence check — when no
row has the requested id and the `UPDATE` does not otherwise fail, the
statement changes zero rows, the response is still 200 (never 404), and one
cleanup attempt for the old URL is still made whenever `old_pdf_url` is
present, non-empty, and differs from `pdf_url`. -/
theorem update_no_existence_check
    (parse : String → Option String) (removeOk : Bool) (errMsg : Option String)
    (table : List Book) (id : Nat) (body : UpdateBody)
    (habs : ∀ b ∈ table, b.id ≠ id) :
    (updateHandler parse removeOk true errMsg table id body).status = 200 ∧
    (updateHandler parse removeOk true errMsg table id body).table = table ∧
    (∀ s, body.old_pdf_url = some s → s ≠ "" → body.pdf_url ≠ some s →
      (updateHandler parse removeOk true errMsg table id body).cleanupUrls = [s]) := by
  have hany : table.any (fun b => b.id == id) = false := by
    rw [List.any_eq_false]
    intro x hx
    simp [habs x hx]
  refine ⟨?_, ?_, ?_⟩
  · cases ho : body.old_pdf_url with
    | none => simp [updateHandler, hany, ho]
    | some old =>
      simp [updateHandler, hany, ho]
      split <;> rfl
  · cases ht : body.title with
    | none =>
      cases ho : body.old_pdf_url with
      | none => simp [updateHandler, hany, ht, ho]
      | some old =>
        simp [updateHandler, hany, ht, ho]
        split <;> rfl
    | some t =>
      cases hp : body.pdf_url with
      | none =>
        cases ho : body.old_pdf_url with
        | none => simp [updateHandler, hany, ht, hp, ho]
        | some old =>
          simp [updateHandler, hany, ht, hp, ho]
          split <;> rfl
      | some p =>
        cases ho : body.old_pdf_url with
        | none =>
          simp only [updateHandler, hany, ht, hp, ho]
          simp only [Bool.false_and, Bool.not_true, Bool.or_false, Bool.false_eq_true,
            if_false]
          exact map_ite_id table _ _ (fun b hb => by simp [habs b hb])
        | some old =>
          simp [updateHandler, hany, ht, hp, ho]
          split <;>
            exact map_ite_id table _ _ (fun b hb => by simp [habs b hb])
  · intro s hs hne hpdf
    simp [updateHandler, hany, hs, hne, bne_iff_ne, hpdf]

/-- Witness for C10: updating the absent id 2 on an empty table answers 200
and still attempts the one cleanup for the differing old URL. -/
theorem update_no_existence_check_witness :
    (updateHandler parseNone true true none [] 2
        ⟨some "T", none, some "th", some "v2", some "v1"⟩).status = 200 ∧
    (updateHandler parseNone true true none [] 2
        ⟨some "T", none, some "th", some "v2", some "v1"⟩).table = [] ∧
    (updateHandler parseNone true true none [] 2
        ⟨some "T", none, some "th", some "v2", some "v1"⟩).cleanupUrls = ["v1"] := by
  have h := update_no_existence_check parseNone true none [] 2
    ⟨some "T", none, some "th", some "v2", some "v1"⟩ (by decide)
  exact ⟨h.1, h.2.1, h.2.2 "v1" rfl (by decide) (by decide)⟩

theorem jsOrInt_ne_zero (v : Option Int) (d : Int) (hd : d ≠ 0) : jsOrInt v d ≠ 0 := by
  cases v with
  | none => exact hd
  | some n => by_cases h : n = 0 <;> simp [jsOrInt, h, hd]

theorem ceil_div_bounds (n : Nat) (l : Int) (hl : 0 < l) :
    (n : Int) ≤ l * Int.ceil ((n : ℚ) / (l : ℚ)) ∧
    l * (Int.ceil ((n : ℚ) / (l : ℚ)) - 1) < (n : Int) := by
  have hlq : (0 : ℚ) < (l : ℚ) := by exact_mod_cast hl
  constructor
  · have h := Int.le_ceil ((n : ℚ) / (l : ℚ))
    rw [div_le_iff₀ hlq] at h
    have h' : (n : ℚ) ≤ (l : ℚ) * (Int.ceil ((n : ℚ) / (l : ℚ)) : ℚ) := by
      calc (n : ℚ) ≤ (Int.ceil ((n : ℚ) / (l : ℚ)) : ℚ) * (l : ℚ) := h
        _ = (l : ℚ) * (Int.ceil ((n : ℚ) / (l : ℚ)) : ℚ) := mul_comm _ _
    exact_mod_cast h'
  · have h := Int.ceil_lt_add_one ((n : ℚ) / (l : ℚ))
    have h' : ((Int.ceil ((n : ℚ) / (l : ℚ)) : ℚ) - 1) < (n : ℚ) / (l : ℚ) := by
      linarith
    rw [lt_div_iff₀ hlq] at h'
    have h'' : (l : ℚ) * ((Int.ceil ((n : ℚ) / (l : ℚ)) : ℚ) - 1) < (n : ℚ) := by
      calc (l : ℚ) * ((Int.ceil ((n : ℚ) / (l : ℚ)) : ℚ) - 1)
          = ((Int.ceil ((n : ℚ) / (l : ℚ)) : ℚ) - 1) * (l : ℚ) := mul_comm _ _
        _ < (n : ℚ) := h'
    exact_mod_cast h''

/-- C6 counterexample: the query value `-1` is non-positive yet does not
fall back to the default page 1 (`parseInt('-1') = -1` is truthy), and the
resulting negative `OFFSET` makes the rows query fail, so the request
answers 500 because of that value. -/
theorem pagedList_negative_page_not_defaulted :
    jsParseInt (some "-1") = some (-1) ∧
    (listHandler true true [] (some "-1") none).currentPage = -1 ∧
    (listHandler true true [] (some "-1") none).status = 500 := by
  refine ⟨by decide, by decide, by decide⟩

/-- C6 (amended): only `NaN` (non-numeric/absent) and `0` page or limit
query values fall back to the defaults (page 1, limit 5) — negative numeric
values are kept and can make the query fail; with both values defaulted the
request succeeds; the offset passed to the query is always
`(page-1)*limit`; and on success `totalPages = ceil(totalBooks/limit)`,
with `totalBooks` the table size. -/
theorem pagedList_defaults_and_pagination (table : List Book) (pq lq : Option String) :
    ((jsParseInt pq = none ∨ jsParseInt pq = some 0) →
      (listHandler true true table pq lq).currentPage = 1) ∧
    ((jsParseInt lq = none ∨ jsParseInt lq = some 0) →
      (listHandler true true table pq lq).limitUsed = 5) ∧
    ((jsParseInt pq = none ∨ jsParseInt pq = some 0) →
     (jsParseInt lq = none ∨ jsParseInt lq = some 0) →
      (listHandler true true table pq lq).status = 200) ∧
    (listHandler true true table pq lq).offsetUsed =
      ((listHandler true true table pq lq).currentPage - 1) *
        (listHandler true true table pq lq).limitUsed ∧
    ((listHandler true true table pq lq).status = 200 →
      (listHandler true true table pq lq).totalBooks = table.length ∧
      0 < (listHandler true true table pq lq).limitUsed ∧
      (listHandler true true table pq lq).totalPages =
        Int.ceil (((listHandler true true table pq lq).totalBooks : ℚ) /
          ((listHandler true true table pq lq).limitUsed : ℚ)) ∧
      ((listHandler true true table pq lq).totalBooks : Int) ≤
        (listHandler true true table pq lq).limitUsed *
          (listHandler true true table pq lq).totalPages ∧
      (listHandler true true table pq lq).limitUsed *
          ((listHandler true true table pq lq).totalPages - 1) <
        ((listHandler true true table pq lq).totalBooks : Int)) := by
  refine ⟨?_, ?_, ?_, ?_, ?_⟩
  · intro hfall
    have h1 : jsOrInt (jsParseInt pq) 1 = 1 := by
      rcases hfall with h | h <;> simp [h, jsOrInt]
    simp only [listHandler]
    split
    · exact h1
    · split
      · exact h1
      · exact h1
  · intro hfall
    have h5 : jsOrInt (jsParseInt lq) 5 = 5 := by
      rcases hfall with h | h <;> simp [h, jsOrInt]
    simp only [listHandler]
    split
    · exact h5
    · split
      · exact h5
      · exact h5
  · intro hp hl
    have h1 : jsOrInt (jsParseInt pq) 1 = 1 := by
      rcases hp with h | h <;> simp [h, jsOrInt]
    have h5 : jsOrInt (jsParseInt lq) 5 = 5 := by
      rcases hl with h | h <;> simp [h, jsOrInt]
    simp [listHandler, h1, h5]
  · simp only [listHandler]
    split
    · rfl
    · split
      · rfl
      · rfl
  · intro h200
    have hl0 : ¬(jsOrInt (jsParseInt lq) 5 < 0) := by
      intro hneg
      simp [listHandler, hneg] at h200
    have ho0 : ¬((jsOrInt (jsParseInt pq) 1 - 1) * jsOrInt (jsParseInt lq) 5 < 0) := by
      intro hneg
      simp [listHandler, hneg] at h200
    have hlpos : 0 < jsOrInt (jsParseInt lq) 5 := by
      have hne := jsOrInt_ne_zero (jsParseInt lq) 5 (by decide)
      omega
    have hbounds := ceil_div_bounds table.length (jsOrInt (jsParseInt lq) 5) hlpos
    have hred : listHandler true true table pq lq =
        ⟨200, true, "",
          ((sortByCreatedDesc table).drop
              ((jsOrInt (jsParseInt pq) 1 - 1) * jsOrInt (jsParseInt lq) 5).toNat).take
            (jsOrInt (jsParseInt lq) 5).toNat,
          jsOrInt (jsParseInt pq) 1,
          Int.ceil ((table.length : ℚ) / (jsOrInt (jsParseInt lq) 5 : ℚ)),
          table.length,
          (jsOrInt (jsParseInt pq) 1 - 1) * jsOrInt (jsParseInt lq) 5,
          jsOrInt (jsParseInt lq) 5⟩ := by
      simp [listHandler, hl0, ho0]
    rw [hred]
    exact ⟨rfl, hlpos, rfl, hbounds.1, hbounds.2⟩

/-- Witness for C6 at concrete inputs: an absent page and a `'0'` limit fall
back to page 1, limit 5, the request succeeds, and the success conjuncts
hold on a one-row table. -/
theorem pagedList_defaults_and_pagination_witness :
    (listHandler true true [bkA] none (some "0")).currentPage = 1 ∧
    (listHandler true true [bkA] none (some "0")).limitUsed = 5 ∧
    (listHandler true true [bkA] none (some "0")).status = 200 ∧
    (listHandler true true [bkA] none (some "0")).totalBooks = 1 := by
  have h := pagedList_defaults_and_pagination [bkA] none (some "0")
  have hst := h.2.2.1 (Or.inl rfl) (Or.inr (by decide))
  refine ⟨h.1 (Or.inl rfl), h.2.1 (Or.inr (by decide)), hst, (h.2.2.2.2 hst).1⟩

theorem jsTruthy_false_iff (v : Option String) :
    jsTruthy v = false ↔ (v = none ∨ v = some "") := by
  cases v with
  | none => simp [jsTruthy]
  | some s => by_cases h : s = "" <;> simp [jsTruthy, h]

theorem jsTruthy_true_iff (v : Option String) :
    jsTruthy v = true ↔ ∃ s, v = some s ∧ s ≠ "" := by
  cases v with
  | none => simp [jsTruthy]
  | some s => by_cases h : s = "" <;> simp [jsTruthy, h]

/-- C7: create fails with 400 and inserts nothing exactly when `title`,
`thumbnail_base64` or `pdf_url` is missing or empty; otherwise (when the
insert succeeds) it appends one row with server-assigned id and timestamp
and answers 201 with an acknowledgement that is independent of the created
record's content (no echo). -/
theorem create_validates_and_inserts
    (dbOk : Bool) (errMsg : Option String) (nid now : Nat) (body : CreateBody)
    (table : List Book) :
    ((createHandler dbOk errMsg nid now body table).status = 400 ↔
      (body.title = none ∨ body.title = some "" ∨
       body.thumbnail_base64 = none ∨ body.thumbnail_base64 = some "" ∨
       body.pdf_url = none ∨ body.pdf_url = some "")) ∧
    ((createHandler dbOk errMsg nid now body table).status = 400 →
      (createHandler dbOk errMsg nid now body table).table = table) ∧
    (∀ t th p, body.title = some t → t ≠ "" → body.thumbnail_base64 = some th →
      th ≠ "" → body.pdf_url = some p → p ≠ "" → dbOk = true →
      (createHandler dbOk errMsg nid now body table).status = 201 ∧
      (createHandler dbOk errMsg nid now body table).table =
        table ++ [{ id := nid, title := t, description := body.description,
                    thumbnail_base64 := some th, pdf_url := p, created_at := now }] ∧
      (createHandler dbOk errMsg nid now body table).success = true ∧
      (createHandler dbOk errMsg nid now body table).message =
        "Buku berhasil ditambahkan") ∧
    (∀ body₂ : CreateBody, jsTruthy body.title = true →
      jsTruthy body.thumbnail_base64 = true → jsTruthy body.pdf_url = true →
      jsTruthy body₂.title = true → jsTruthy body₂.thumbnail_base64 = true →
      jsTruthy body₂.pdf_url = true →
      (createHandler dbOk errMsg nid now body table).status =
        (createHandler dbOk errMsg nid now body₂ table).status ∧
      (createHandler dbOk errMsg nid now body table).message =
        (createHandler dbOk errMsg nid now body₂ table).message ∧
      (createHandler dbOk errMsg nid now body table).success =
        (createHandler dbOk errMsg nid now body₂ table).success) := by
  have hmiss : (jsTruthy body.title && jsTruthy body.thumbnail_base64 &&
      jsTruthy body.pdf_url) = false ↔
      (body.title = none ∨ body.title = some "" ∨
       body.thumbnail_base64 = none ∨ body.thumbnail_base64 = some "" ∨
       body.pdf_url = none ∨ body.pdf_url = some "") := by
    rw [Bool.and_eq_false_iff, Bool.and_eq_false_iff,
      jsTruthy_false_iff, jsTruthy_false_iff, jsTruthy_false_iff]
    tauto
  have hvalidEq : ∀ (b : CreateBody) t th p, b.title = some t → t ≠ "" →
      b.thumbnail_base64 = some th → th ≠ "" → b.pdf_url = some p → p ≠ "" →
      createHandler dbOk errMsg nid now b table =
        (if dbOk = true then
          ⟨201, true, "Buku berhasil ditambahkan",
            table ++ [{ id := nid, title := t, description := b.description,
                        thumbnail_base64 := some th, pdf_url := p, created_at := now }],
            [], [], []⟩
         else ⟨500, false, jsOrServerError errMsg, table, [], [], []⟩) := by
    intro b t th p ht htne hth hthne hp hpne
    cases dbOk <;> simp [createHandler, ht, htne, hth, hthne, hp, hpne, jsTruthy]
  refine ⟨?_, ?_, ?_, ?_⟩
  · constructor
    · intro h400
      by_contra hnot
      have hv : (jsTruthy body.title && jsTruthy body.thumbnail_base64 &&
          jsTruthy body.pdf_url) = true := by
        cases hb : (jsTruthy body.title && jsTruthy body.thumbnail_base64 &&
            jsTruthy body.pdf_url) with
        | false => exact absurd (hmiss.mp hb) hnot
        | true => rfl
      rw [Bool.and_eq_true, Bool.and_eq_true] at hv
      obtain ⟨⟨h1, h2⟩, h3⟩ := hv
      obtain ⟨t, ht, htne⟩ := (jsTruthy_true_iff _).mp h1
      obtain ⟨th, hth, hthne⟩ := (jsTruthy_true_iff _).mp h2
      obtain ⟨p, hp, hpne⟩ := (jsTruthy_true_iff _).mp h3
      rw [hvalidEq body t th p ht htne hth hthne hp hpne] at h400
      cases dbOk <;> simp at h400
    · intro hRHS
      have hv := hmiss.mpr hRHS
      simp [createHandler, hv]
  · intro h400
    cases hb : (jsTruthy body.title && jsTruthy body.thumbnail_base64 &&
        jsTruthy body.pdf_url) with
    | false => simp [createHandler, hb]
    | true =>
      rw [Bool.and_eq_true, Bool.and_eq_true] at hb
      obtain ⟨⟨h1, h2⟩, h3⟩ := hb
      obtain ⟨t, ht, htne⟩ := (jsTruthy_true_iff _).mp h1
      obtain ⟨th, hth, hthne⟩ := (jsTruthy_true_iff _).mp h2
      obtain ⟨p, hp, hpne⟩ := (jsTruthy_true_iff _).mp h3
      rw [hvalidEq body t th p ht htne hth hthne hp hpne] at h400 ⊢
      cases dbOk <;> simp at h400
  · intro t th p ht htne hth hthne hp hpne hdb
    rw [hvalidEq body t th p ht htne hth hthne hp hpne, hdb]
    exact ⟨rfl, rfl, rfl, rfl⟩
  · intro body₂ h1 h2 h3 h1' h2' h3'
    obtain ⟨t, ht, htne⟩ := (jsTruthy_true_iff _).mp h1
    obtain ⟨th, hth, hthne⟩ := (jsTruthy_true_iff _).mp h2
    obtain ⟨p, hp, hpne⟩ := (jsTruthy_true_iff _).mp h3
    obtain ⟨t', ht', htne'⟩ := (jsTruthy_true_iff _).mp h1'
    obtain ⟨th', hth', hthne'⟩ := (jsTruthy_true_iff _).mp h2'
    obtain ⟨p', hp', hpne'⟩ := (jsTruthy_true_iff _).mp h3'
    rw [hvalidEq body t th p ht htne hth hthne hp hpne,
      hvalidEq body₂ t' th' p' ht' htne' hth' hthne' hp' hpne']
    cases dbOk <;> exact ⟨rfl, rfl, rfl⟩

/-- Witness for C7 at concrete bodies: a missing `pdf_url` gives 400 with no
insert; a complete body gives 201 and appends exactly one row. -/
theorem create_validates_and_inserts_witness :
    (createHandler true none 7 3 ⟨some "T", some "d", some "x", none⟩ [bkA]).status = 400 ∧
    (createHandler true none 7 3 ⟨some "T", some "d", some "x", none⟩ [bkA]).table = [bkA] ∧
    (createHandler true none 7 3 ⟨some "T", some "d", some "x", some "u"⟩ [bkA]).status = 201 ∧
    (createHandler true none 7 3 ⟨some "T", some "d", some "x", some "u"⟩ [bkA]).table =
      [bkA] ++ [{ id := 7, title := "T", description := some "d",
                  thumbnail_base64 := some "x", pdf_url := "u", created_at := 3 }] := by
  have hbad := create_validates_and_inserts true none 7 3
    ⟨some "T", some "d", some "x", none⟩ [bkA]
  have h400 := hbad.1.mpr (by simp)
  have hgood := (create_validates_and_inserts true none 7 3
    ⟨some "T", some "d", some "x", some "u"⟩ [bkA]).2.2.1 "T" "x" "u"
    rfl (by decide) rfl (by decide) rfl (by decide) rfl
  exact ⟨h400, hbad.2.1 h400, hgood.1, hgood.2.1⟩

theorem callPath_isApi (call : ApiCall) :
    "/api/".data.isPrefixOf (callPath call) = true := by
  cases call with
  | pagedList pq lq =>
    rw [callPath]
    decide
  | create b =>
    rw [callPath]
    decide
  | update i b =>
    rw [callPath, List.isPrefixOf_iff_prefix]
    exact (show "/api/".data <+: "/api/books/".data by decide).trans
      (List.prefix_append _ _)
  | del i =>
    rw [callPath, List.isPrefixOf_iff_prefix]
    exact (show "/api/".data <+: "/api/books/".data by decide).trans
      (List.prefix_append _ _)
  | checkAuth => decide

/-- C8: every request to a protected endpoint (paged list, create, update,
delete, check-auth) whose session cookie is not the fixed logged-in marker
is answered 401 by the middleware (all these paths start with `/api/`, so
the API-style branch is taken), and neither the book table nor the object
store is touched. -/
theorem protected_requires_auth
    (o : Oracles) (session : Option String) (xhr acceptsJson : Bool)
    (call : ApiCall) (table : List Book)
    (h : session ≠ some "admin_logged_in") :
    (handleProtected o session xhr acceptsJson call table).status = 401 ∧
    (handleProtected o session xhr acceptsJson call table).table = table ∧
    (handleProtected o session xhr acceptsJson call table).removeRequests = [] ∧
    (handleProtected o session xhr acceptsJson call table).removed = [] := by
  have hmw : authMiddleware session xhr acceptsJson (callPath call) = .denied401 := by
    simp [authMiddleware, h, callPath_isApi call]
  simp [handleProtected, hmw]

/-- Concrete oracle bundle used by witnesses. -/
def oraclesA : Oracles :=
  ⟨parseNone, true, dbAllOk, true, true, true, true, none, 1, 0⟩

/-- Witness for C8: a delete request with no session cookie is answered 401
and leaves the table untouched. -/
theorem protected_requires_auth_witness :
    (handleProtected oraclesA none false false (ApiCall.del 1) [bkA]).status = 401 ∧
    (handleProtected oraclesA none false false (ApiCall.del 1) [bkA]).table = [bkA] ∧
    (handleProtected oraclesA none false false (ApiCall.del 1) [bkA]).removed = [] := by
  have h := protected_requires_auth oraclesA none false false (ApiCall.del 1) [bkA]
    (by decide)
  exact ⟨h.1, h.2.1, h.2.2.2⟩
